import Mathlib

/-!
Verification of the conntrack cleanup scanners (bpf/conntrack/cleanup.go) and of
the TC datapath program (bpf-gpl/tc.c) of the Felix BPF dataplane.

The Go and C sources are embedded shallowly: pure functions become Lean
functions, the conntrack map becomes an association list, kernel helpers and
control-plane supplied tables become explicit oracle parameters.
-/

namespace Conntrack

/-- Protocol numbers used by the conntrack package (ProtoTCP etc.). -/
def ProtoTCP : Nat := 6

def ProtoUDP : Nat := 17

def ProtoICMP : Nat := 1

/-- Conntrack map key: (proto, addrA, portA, addrB, portB).
Modelled from the spec (3.1); the key accessor methods live outside the
provided tree. -/
structure Key where
  proto : Nat
  addrA : Nat
  portA : Nat
  addrB : Nat
  portB : Nat
deriving DecidableEq, Repr

/-- TCP sub-state bits of a conntrack entry, as read by the accessors
Data().Established(), Data().FINsSeen(), Data().FINsSeenDSR() and
Data().RSTSeen().  Modelled from the spec (3.1). -/
structure CTData where
  established : Bool
  finsSeen : Bool
  finsSeenDSR : Bool
  rstSeen : Bool
deriving DecidableEq, Repr

/-- The variant part of a conntrack value: Normal, NAT-Reverse (carrying the
original destination) or NAT-Forward (carrying the reverse key).
Modelled from the spec (3.1). -/
inductive ValuePayload where
  | normal
  | natReverse (origIP : Nat) (origPort : Nat) (tunRetIP : Nat)
  | natForward (revKey : Key)
deriving DecidableEq, Repr

/-- A conntrack value.  Creation / last-seen timestamps, the DSR-forward flag
and the TCP state bits are present for every variant, as in the binary layout
read by Created(), LastSeen(), IsForwardDSR() and Data().
Modelled from the spec (3.1). -/
structure Value where
  created : Int
  lastSeen : Int
  forwardDSR : Bool
  data : CTData
  payload : ValuePayload
deriving DecidableEq, Repr

/-- Timeouts structure of cleanup.go, durations in nanoseconds. -/
structure Timeouts where
  CreationGracePeriod : Int
  TCPPreEstablished : Int
  TCPEstablished : Int
  TCPFinsSeen : Int
  TCPResetSeen : Int
  UDPLastSeen : Int
  ICMPLastSeen : Int
deriving DecidableEq, Repr

/-- DefaultTimeouts of cleanup.go. -/
def DefaultTimeouts : Timeouts where
  CreationGracePeriod := 10 * 1000000000
  TCPPreEstablished := 20 * 1000000000
  TCPEstablished := 3600 * 1000000000
  TCPFinsSeen := 30 * 1000000000
  TCPResetSeen := 40 * 1000000000
  UDPLastSeen := 60 * 1000000000
  ICMPLastSeen := 5 * 1000000000

/-- ScanVerdict of cleanup.go. -/
inductive ScanVerdict where
  | ok
  | delete
deriving DecidableEq, Repr

/-- Error classification for conntrack map gets: bpf.IsNotExists distinguishes
the missing-key error from every other error. -/
inductive GetErr where
  | notExists
  | other
deriving DecidableEq, Repr

/-- EntryGet of cleanup.go: a lookup function handed to the entry scanners. -/
def EntryGet : Type := Key → Except GetErr Value

/-- LivenessScanner.EntryExpired of cleanup.go.  sinceCreation and age are
inlined as nowNanos - created and nowNanos - lastSeen. -/
def EntryExpired (t : Timeouts) (nowNanos : Int) (proto : Nat) (entry : Value) :
    String × Bool :=
  if nowNanos - entry.created < t.CreationGracePeriod then ("", false)
  else if proto = ProtoTCP then
    if entry.data.rstSeen ∧ nowNanos - entry.lastSeen > t.TCPResetSeen then
      ("RST seen", true)
    else if ((entry.forwardDSR ∧ entry.data.finsSeenDSR) ∨ entry.data.finsSeen) ∧
        nowNanos - entry.lastSeen > t.TCPFinsSeen then
      ("FINs seen", true)
    else if entry.data.established ∨ entry.forwardDSR then
      if nowNanos - entry.lastSeen > t.TCPEstablished then
        ("no traffic on established flow for too long", true)
      else ("", false)
    else
      if nowNanos - entry.lastSeen > t.TCPPreEstablished then
        ("no traffic on pre-established flow for too long", true)
      else ("", false)
  else if proto = ProtoICMP then
    if nowNanos - entry.lastSeen > t.ICMPLastSeen then
      ("no traffic on ICMP flow for too long", true)
    else ("", false)
  else
    if nowNanos - entry.lastSeen > t.UDPLastSeen then
      ("no traffic on UDP flow for too long", true)
    else ("", false)

/-- LivenessScanner.ScanEntry of cleanup.go, with the injected now timestamp
made explicit (the scanner reads l.NowNanos()). -/
def ScanEntry (t : Timeouts) (now : Int) (ctKey : Key) (ctVal : Value)
    (get : EntryGet) : ScanVerdict :=
  match ctVal.payload with
  | .natForward revKey =>
    match get revKey with
    | .error .notExists => .delete
    | .error .other => .ok
    | .ok revEntry =>
      if (EntryExpired t now ctKey.proto revEntry).2 then .delete else .ok
  | .natReverse _ _ _ =>
    if (EntryExpired t now ctKey.proto ctVal).2 then .delete else .ok
  | .normal =>
    if (EntryExpired t now ctKey.proto ctVal).2 then .delete else .ok

/-- The conntrack map, as the association list over which Scanner.Scan
iterates. -/
abbrev CTMap : Type := List (Key × Value)

/-- Scanner.get of cleanup.go: lookup in the live map; a missing key is the
IsNotExists error. -/
def mapGet (m : CTMap) : EntryGet := fun k =>
  match m.find? (fun e => e.1 == k) with
  | some e => .ok e.2
  | none => .error .notExists

/-- Deletion of a key from the conntrack map. -/
def eraseKey (k : Key) (m : CTMap) : CTMap :=
  m.filter (fun e => !(e.1 == k))

/-- One iteration step of Scanner.Scan: evaluate the scanner on the current
entry against the live map and delete the current key on a delete verdict. -/
def scanStep (t : Timeouts) (now : Int) (cur : CTMap) (e : Key × Value) : CTMap :=
  if ScanEntry t now e.1 e.2 (mapGet cur) = .delete then eraseKey e.1 cur else cur

/-- The remainder of a Scanner.Scan pass: fold the snapshot of entries still to
visit over the live map. -/
def scanPassAux (t : Timeouts) (now : Int) (cur : CTMap) :
    List (Key × Value) → CTMap
  | [] => cur
  | e :: rest => scanPassAux t now (scanStep t now cur e) rest

/-- Scanner.Scan of cleanup.go with the LivenessScanner as the single entry
scanner: the resulting conntrack map. -/
def scanPass (t : Timeouts) (now : Int) (m : CTMap) : CTMap :=
  scanPassAux t now m m

/-- The keys deleted during the remainder of a Scanner.Scan pass. -/
def scanDeletionsAux (t : Timeouts) (now : Int) (cur : CTMap) :
    List (Key × Value) → List Key
  | [] => []
  | e :: rest =>
    if ScanEntry t now e.1 e.2 (mapGet cur) = .delete then
      e.1 :: scanDeletionsAux t now (eraseKey e.1 cur) rest
    else scanDeletionsAux t now cur rest

/-- The keys deleted by one Scanner.Scan pass of the liveness scanner. -/
def scanDeletions (t : Timeouts) (now : Int) (m : CTMap) : List Key :=
  scanDeletionsAux t now m m

/-- NATChecker of cleanup.go: frontendHasBackend(frontIP, frontPort, backIP,
backPort, proto). -/
def NATChecker : Type := Nat → Nat → Nat → Nat → Nat → Bool

/-- NewStaleNATScanner of cleanup.go: the EntryScanner closure it returns. -/
def NewStaleNATScanner (frontendHasBackend : NATChecker) :
    Key → Value → EntryGet → ScanVerdict := fun k v _ =>
  match v.payload with
  | .normal => .ok
  | .natReverse origIP origPort _ =>
    if !(frontendHasBackend origIP origPort k.addrA k.portA k.proto) &&
       !(frontendHasBackend origIP origPort k.addrB k.portB k.proto) then
      .delete
    else .ok
  | .natForward revKey =>
    if k.addrA == revKey.addrA then
      if !(frontendHasBackend k.addrB k.portB revKey.addrB revKey.portB k.proto) then
        .delete
      else .ok
    else if k.addrA == revKey.addrB then
      if !(frontendHasBackend k.addrA k.portA revKey.addrA revKey.portA k.proto) then
        .delete
      else .ok
    else
      if !(frontendHasBackend 0 0 0 0 k.proto) then .delete else .ok

lemma mem_of_mem_eraseKey {k : Key} {m : CTMap} {e : Key × Value}
    (h : e ∈ eraseKey k m) : e ∈ m :=
  (List.mem_filter.mp h).1

lemma key_ne_of_mem_eraseKey {k : Key} {m : CTMap} {e : Key × Value}
    (h : e ∈ eraseKey k m) : e.1 ≠ k := by
  have h2 := (List.mem_filter.mp h).2
  simpa using h2

lemma mem_eraseKey_of_mem {k : Key} {m : CTMap} {e : Key × Value}
    (h : e ∈ m) (hne : e.1 ≠ k) : e ∈ eraseKey k m :=
  List.mem_filter.mpr ⟨h, by simpa using hne⟩

lemma eraseKey_sublist (k : Key) (m : CTMap) : (eraseKey k m).Sublist m :=
  List.filter_sublist m

lemma nodup_keys_eraseKey {k : Key} {m : CTMap}
    (h : (m.map Prod.fst).Nodup) : ((eraseKey k m).map Prod.fst).Nodup :=
  h.sublist (List.Sublist.map Prod.fst (eraseKey_sublist k m))

lemma nodup_keys_value_eq {m : CTMap} {k : Key} {v w : Value}
    (hnd : (m.map Prod.fst).Nodup) (h1 : (k, v) ∈ m) (h2 : (k, w) ∈ m) :
    v = w := by
  induction m with
  | nil => cases h1
  | cons a rest ih =>
    rw [List.map_cons, List.nodup_cons] at hnd
    rcases List.mem_cons.mp h1 with h1a | h1r <;>
      rcases List.mem_cons.mp h2 with h2a | h2r
    · rw [← h1a] at h2a
      exact congrArg Prod.snd h2a.symm
    · exfalso
      exact hnd.1 (List.mem_map.mpr ⟨(k, w), h2r, by rw [← h1a]⟩)
    · exfalso
      exact hnd.1 (List.mem_map.mpr ⟨(k, v), h1r, by rw [← h2a]⟩)
    · exact ih hnd.2 h1r h2r

lemma mapGet_ne_error_other (m : CTMap) (k : Key) :
    mapGet m k ≠ .error .other := by
  unfold mapGet
  cases h : m.find? (fun e => e.1 == k) <;> simp

lemma mapGet_ok_mem {m : CTMap} {k : Key} {v : Value}
    (h : mapGet m k = .ok v) : (k, v) ∈ m := by
  unfold mapGet at h
  cases hf : m.find? (fun e => e.1 == k) with
  | none => rw [hf] at h; cases h
  | some e =>
    rw [hf] at h
    have hv : e.2 = v := by
      cases h
      rfl
    have hmem := List.mem_of_find?_eq_some hf
    have hkey : e.1 = k := by
      have := List.find?_some hf
      simpa using this
    obtain ⟨a, b⟩ := e
    cases hkey
    cases hv
    exact hmem

lemma mapGet_of_mem {m : CTMap} {k : Key} {v : Value}
    (hnd : (m.map Prod.fst).Nodup) (h : (k, v) ∈ m) : mapGet m k = .ok v := by
  unfold mapGet
  cases hf : m.find? (fun e => e.1 == k) with
  | none =>
    exfalso
    have hne := List.find?_eq_none.mp hf (k, v) h
    simp at hne
  | some e =>
    have hkey : e.1 = k := by
      have := List.find?_some hf
      simpa using this
    have hmem := List.mem_of_find?_eq_some hf
    obtain ⟨a, b⟩ := e
    cases hkey
    have hv : b = v := nodup_keys_value_eq hnd hmem h
    rw [hv]

/-- C1 (amended): on a NAT-Forward entry the liveness scanner returns the
delete verdict when the reverse-key lookup reports a missing key, keeps the
entry on any other lookup error, and handling the current entry only ever
removes the current key from the map, so a companion entry is never deleted as
part of the forward entry's own scan. -/
theorem C1_forward_nat_scan (t : Timeouts) (now : Int) :
    (∀ (k : Key) (c ls : Int) (f : Bool) (d : CTData) (rk : Key) (g : EntryGet),
      g rk = .error .notExists →
      ScanEntry t now k ⟨c, ls, f, d, .natForward rk⟩ g = .delete) ∧
    (∀ (k : Key) (c ls : Int) (f : Bool) (d : CTData) (rk : Key) (g : EntryGet),
      g rk = .error .other →
      ScanEntry t now k ⟨c, ls, f, d, .natForward rk⟩ g = .ok) ∧
    (∀ (cur : CTMap) (e : Key × Value) (k' : Key) (v' : Value),
      (k', v') ∈ cur → k' ≠ e.1 → (k', v') ∈ scanStep t now cur e) := by
  refine ⟨?_, ?_, ?_⟩
  · intro k c ls f d rk g hg
    simp [ScanEntry, hg]
  · intro k c ls f d rk g hg
    simp [ScanEntry, hg]
  · intro cur e k' v' hmem hne
    unfold scanStep
    split
    · exact mem_eraseKey_of_mem hmem hne
    · exact hmem

def c1kF : Key := ⟨17, 10, 1000, 20, 2000⟩

def c1kR : Key := ⟨17, 11, 1111, 21, 2222⟩

def c1vR : Value := ⟨0, 0, false, ⟨false, false, false, false⟩, .natReverse 30 80 0⟩

def c1vF : Value := ⟨0, 0, false, ⟨false, false, false, false⟩, .natForward c1kR⟩

/-- C1 counterexample: with the expired reverse entry later in the iteration
order, the forward entry is deleted because its reverse entry is expired, and
the reverse entry is deleted as well in the very same scan pass. -/
theorem C1_reverse_deleted_same_pass_counterexample :
    ScanEntry DefaultTimeouts 120000000000 c1kF c1vF
      (mapGet [(c1kF, c1vF), (c1kR, c1vR)]) = .delete ∧
    mapGet [(c1kF, c1vF), (c1kR, c1vR)] c1kR = .ok c1vR ∧
    (EntryExpired DefaultTimeouts 120000000000 c1kF.proto c1vR).2 = true ∧
    scanDeletions DefaultTimeouts 120000000000 [(c1kF, c1vF), (c1kR, c1vR)] =
      [c1kF, c1kR] :=
  ⟨by decide, rfl, by decide, by decide⟩

/-- C1 witness: the amended statement applied at concrete inputs. -/
theorem C1_forward_nat_scan_witness :
    ScanEntry DefaultTimeouts 0 c1kF c1vF (fun _ => .error .notExists) = .delete ∧
    ScanEntry DefaultTimeouts 0 c1kF c1vF (fun _ => .error .other) = .ok ∧
    (c1kR, c1vR) ∈ scanStep DefaultTimeouts 0 [(c1kF, c1vF), (c1kR, c1vR)]
      (c1kF, c1vF) :=
  ⟨(C1_forward_nat_scan DefaultTimeouts 0).1 c1kF 0 0 false
      ⟨false, false, false, false⟩ c1kR _ rfl,
   (C1_forward_nat_scan DefaultTimeouts 0).2.1 c1kF 0 0 false
      ⟨false, false, false, false⟩ c1kR _ rfl,
   (C1_forward_nat_scan DefaultTimeouts 0).2.2 _ (c1kF, c1vF) c1kR c1vR
      (by decide) (by decide)⟩

/-- C5: an entry younger than the creation grace period is never expired,
whatever its protocol, TCP state bits or last-seen timestamp. -/
theorem C5_creation_grace_keeps (t : Timeouts) (now : Int) (proto : Nat)
    (e : Value) (h : now - e.created < t.CreationGracePeriod) :
    EntryExpired t now proto e = ("", false) := by
  unfold EntryExpired
  rw [if_pos h]

/-- C5 witness: a concrete TCP entry with every expiry condition otherwise met
is kept while inside the grace period. -/
theorem C5_creation_grace_keeps_witness :
    ((5000000000 : Int) - 0 < DefaultTimeouts.CreationGracePeriod) ∧
    EntryExpired DefaultTimeouts 5000000000 ProtoTCP
      ⟨0, -100000000000, true, ⟨true, true, true, true⟩, .normal⟩ = ("", false) :=
  ⟨by decide,
   C5_creation_grace_keeps DefaultTimeouts 5000000000 ProtoTCP
     ⟨0, -100000000000, true, ⟨true, true, true, true⟩, .normal⟩ (by decide)⟩

/-- C4: past the creation grace period, EntryExpired applies the TCP timeout
rules in order: RST seen first, then FINs seen (both legs, or the single-FIN
condition for DSR-forward entries), then the established / DSR-forward timeout,
and finally the pre-established timeout. -/
theorem C4_tcp_timeout_rule_order (t : Timeouts) (now : Int) (e : Value)
    (hgrace : ¬ now - e.created < t.CreationGracePeriod) :
    ((e.data.rstSeen = true ∧ now - e.lastSeen > t.TCPResetSeen) →
      EntryExpired t now ProtoTCP e = ("RST seen", true)) ∧
    (¬ (e.data.rstSeen = true ∧ now - e.lastSeen > t.TCPResetSeen) →
      (((e.forwardDSR = true ∧ e.data.finsSeenDSR = true) ∨ e.data.finsSeen = true) ∧
        now - e.lastSeen > t.TCPFinsSeen) →
      EntryExpired t now ProtoTCP e = ("FINs seen", true)) ∧
    (¬ (e.data.rstSeen = true ∧ now - e.lastSeen > t.TCPResetSeen) →
      ¬ ((((e.forwardDSR = true ∧ e.data.finsSeenDSR = true) ∨ e.data.finsSeen = true) ∧
        now - e.lastSeen > t.TCPFinsSeen)) →
      (e.data.established = true ∨ e.forwardDSR = true) →
      ((EntryExpired t now ProtoTCP e).2 = true ↔ now - e.lastSeen > t.TCPEstablished)) ∧
    (¬ (e.data.rstSeen = true ∧ now - e.lastSeen > t.TCPResetSeen) →
      ¬ ((((e.forwardDSR = true ∧ e.data.finsSeenDSR = true) ∨ e.data.finsSeen = true) ∧
        now - e.lastSeen > t.TCPFinsSeen)) →
      ¬ (e.data.established = true ∨ e.forwardDSR = true) →
      ((EntryExpired t now ProtoTCP e).2 = true ↔ now - e.lastSeen > t.TCPPreEstablished)) := by
  unfold EntryExpired
  rw [if_neg hgrace, if_pos rfl]
  refine ⟨?_, ?_, ?_, ?_⟩
  · intro h
    rw [if_pos h]
  · intro h1 h2
    rw [if_neg h1, if_pos h2]
  · intro h1 h2 h3
    rw [if_neg h1, if_neg h2, if_pos h3]
    by_cases h4 : now - e.lastSeen > t.TCPEstablished
    · rw [if_pos h4]
      simpa using h4
    · rw [if_neg h4]
      simpa using h4
  · intro h1 h2 h3
    rw [if_neg h1, if_neg h2, if_neg h3]
    by_cases h4 : now - e.lastSeen > t.TCPPreEstablished
    · rw [if_pos h4]
      simpa using h4
    · rw [if_neg h4]
      simpa using h4

/-- C4 witness: concrete entries past the grace period exercising the RST rule
and the established-timeout rule. -/
theorem C4_tcp_timeout_rule_order_witness :
    EntryExpired DefaultTimeouts 50000000000 ProtoTCP
      ⟨0, 0, false, ⟨true, false, false, true⟩, .normal⟩ = ("RST seen", true) ∧
    ((EntryExpired DefaultTimeouts 50000000000 ProtoTCP
      ⟨0, 0, false, ⟨true, false, false, false⟩, .normal⟩).2 = true ↔
      (50000000000 : Int) - 0 > DefaultTimeouts.TCPEstablished) :=
  ⟨(C4_tcp_timeout_rule_order DefaultTimeouts 50000000000
      ⟨0, 0, false, ⟨true, false, false, true⟩, .normal⟩ (by decide)).1 (by decide),
   (C4_tcp_timeout_rule_order DefaultTimeouts 50000000000
      ⟨0, 0, false, ⟨true, false, false, false⟩, .normal⟩ (by decide)).2.2.1
      (by decide) (by decide) (by decide)⟩

/-- Boolean view of the expiry verdict of EntryExpired. -/
def expiredAt (t : Timeouts) (now : Int) (p : Nat) (v : Value) : Bool :=
  (EntryExpired t now p v).2

/-- The reverse key a NAT-Forward value points at, if the value is one. -/
def fwdTarget (v : Value) : Option Key :=
  match v.payload with
  | .natForward rk => some rk
  | _ => none

/-- Every NAT-Forward entry carries the same protocol in its own key and in
the reverse key it points at. -/
def protoConsistentB (m : CTMap) : Bool :=
  m.all fun e =>
    match fwdTarget e.2 with
    | some rk => e.1.proto == rk.proto
    | none => true

/-- No NAT-Forward entry points at a key held by another NAT-Forward entry. -/
def noFwdChainB (m : CTMap) : Bool :=
  m.all fun e =>
    match fwdTarget e.2 with
    | some rk =>
      match mapGet m rk with
      | .ok w => (fwdTarget w).isNone
      | _ => true
    | none => true

lemma fwdTarget_forward {v : Value} {rk : Key} (h : v.payload = .natForward rk) :
    fwdTarget v = some rk := by
  unfold fwdTarget
  rw [h]

lemma ScanEntry_nonforward (t : Timeouts) (now : Int) (k : Key) (v : Value)
    (g : EntryGet) (h : fwdTarget v = none) :
    ScanEntry t now k v g =
      (if expiredAt t now k.proto v then .delete else .ok) := by
  obtain ⟨c, ls, f, d, pl⟩ := v
  cases pl with
  | normal => rfl
  | natReverse o p tr => rfl
  | natForward rk => simp [fwdTarget] at h

lemma ScanEntry_forward (t : Timeouts) (now : Int) (k : Key) (v : Value)
    (rk : Key) (g : EntryGet) (h : v.payload = .natForward rk) :
    ScanEntry t now k v g =
      (match g rk with
       | .error .notExists => .delete
       | .error .other => .ok
       | .ok w => if expiredAt t now k.proto w then .delete else .ok) := by
  obtain ⟨c, ls, f, d, pl⟩ := v
  cases pl with
  | normal => cases h
  | natReverse o p tr => cases h
  | natForward rk2 =>
    have h2 : rk2 = rk := by
      injection h
    subst h2
    rfl

lemma fwdTarget_eq_some {v : Value} {rk : Key} (h : fwdTarget v = some rk) :
    v.payload = .natForward rk := by
  obtain ⟨c, ls, f, d, pl⟩ := v
  cases pl with
  | normal => simp [fwdTarget] at h
  | natReverse o p tr => simp [fwdTarget] at h
  | natForward rk2 =>
    simp [fwdTarget] at h
    rw [h]

lemma verdict_ok_of_ne_delete {s : ScanVerdict} (h : s ≠ .delete) : s = .ok := by
  cases s with
  | ok => rfl
  | delete => exact absurd rfl h

/-- An entry is settled in a map when the liveness verdict it will get against
that map is the keep verdict, for a reason stable under further deletions. -/
def Settled (t : Timeouts) (now : Int) (cur : CTMap) (k : Key) (v : Value) :
    Prop :=
  (fwdTarget v = none ∧ expiredAt t now k.proto v = false) ∨
  (∃ rk w, v.payload = .natForward rk ∧ (rk, w) ∈ cur ∧ fwdTarget w = none ∧
    expiredAt t now k.proto w = false)

/-- Invariant maintained along a liveness scan pass: the live map and the
snapshot of entries still to visit stay inside the original map, keys stay
distinct, and every already-visited survivor is settled. -/
structure GoodState (t : Timeouts) (now : Int) (m0 cur : CTMap)
    (todo : List (Key × Value)) : Prop where
  curSub : ∀ e, e ∈ cur → e ∈ m0
  todoSub : ∀ e, e ∈ todo → e ∈ m0
  curNodup : (cur.map Prod.fst).Nodup
  settled : ∀ k v, (k, v) ∈ cur → (k, v) ∉ todo → Settled t now cur k v

lemma good_step (t : Timeouts) (now : Int) (m0 : CTMap)
    (Hnodup0 : (m0.map Prod.fst).Nodup)
    (Hproto : ∀ k v rk, (k, v) ∈ m0 → v.payload = .natForward rk →
      k.proto = rk.proto)
    (Hchain : ∀ k v rk w, (k, v) ∈ m0 → v.payload = .natForward rk →
      (rk, w) ∈ m0 → fwdTarget w = none)
    (cur : CTMap) (e : Key × Value) (todo : List (Key × Value))
    (G : GoodState t now m0 cur (e :: todo)) :
    GoodState t now m0 (scanStep t now cur e) todo := by
  obtain ⟨k0, v0⟩ := e
  by_cases hdel : ScanEntry t now k0 v0 (mapGet cur) = .delete
  · have hstep : scanStep t now cur (k0, v0) = eraseKey k0 cur := by
      unfold scanStep
      rw [if_pos hdel]
    rw [hstep]
    refine ⟨fun e he => G.curSub e (mem_of_mem_eraseKey he),
            fun e he => G.todoSub e (List.mem_cons_of_mem _ he),
            nodup_keys_eraseKey G.curNodup, ?_⟩
    intro k v hmem hnt
    have hmemcur := mem_of_mem_eraseKey hmem
    have hkne : k ≠ k0 := key_ne_of_mem_eraseKey hmem
    have hset : Settled t now cur k v := by
      refine G.settled k v hmemcur ?_
      intro hc
      rcases List.mem_cons.mp hc with h | h
      · exact hkne (congrArg Prod.fst h)
      · exact hnt h
    rcases hset with ⟨hft, hexp⟩ | ⟨rk, w, hpay, hmemw, hwt, hexp⟩
    · exact Or.inl ⟨hft, hexp⟩
    · by_cases hrk : rk = k0
      · exfalso
        subst hrk
        have hv0m0 : (rk, v0) ∈ m0 := G.todoSub _ (List.mem_cons_self _ _)
        have hwm0 : (rk, w) ∈ m0 := G.curSub _ hmemw
        have hwv0 : w = v0 := nodup_keys_value_eq Hnodup0 hwm0 hv0m0
        have hproto : k.proto = rk.proto :=
          Hproto k v rk (G.curSub _ hmemcur) hpay
        have hV1 := ScanEntry_nonforward t now rk v0 (mapGet cur)
          (by rw [← hwv0]; exact hwt)
        rw [hV1] at hdel
        rw [← hwv0, ← hproto, hexp] at hdel
        simp at hdel
      · exact Or.inr ⟨rk, w, hpay, mem_eraseKey_of_mem hmemw hrk, hwt, hexp⟩
  · have hstep : scanStep t now cur (k0, v0) = cur := by
      unfold scanStep
      rw [if_neg hdel]
    rw [hstep]
    refine ⟨G.curSub, fun e he => G.todoSub e (List.mem_cons_of_mem _ he),
            G.curNodup, ?_⟩
    intro k v hmem hnt
    by_cases heq : (k, v) = (k0, v0)
    · have hk : k = k0 := congrArg Prod.fst heq
      have hv : v = v0 := congrArg Prod.snd heq
      subst hk
      subst hv
      have hok := verdict_ok_of_ne_delete hdel
      cases hft : fwdTarget v with
      | none =>
        have hV1 := ScanEntry_nonforward t now k v (mapGet cur) hft
        rw [hV1] at hok
        by_cases hexp : expiredAt t now k.proto v = true
        · rw [if_pos hexp] at hok
          cases hok
        · exact Or.inl ⟨hft, by simpa using hexp⟩
      | some rk =>
        have hpay := fwdTarget_eq_some hft
        have hV2 := ScanEntry_forward t now k v rk (mapGet cur) hpay
        rw [hV2] at hok
        cases hg : mapGet cur rk with
        | error err =>
          cases err with
          | notExists =>
            rw [hg] at hok
            cases hok
          | other => exact absurd hg (mapGet_ne_error_other cur rk)
        | ok w =>
          rw [hg] at hok
          dsimp only at hok
          have hexp : expiredAt t now k.proto w = false := by
            by_cases hx : expiredAt t now k.proto w = true
            · rw [if_pos hx] at hok
              cases hok
            · simpa using hx
          have hmemw := mapGet_ok_mem hg
          exact Or.inr ⟨rk, w, hpay, hmemw,
            Hchain k v rk w (G.curSub _ hmem) hpay (G.curSub _ hmemw), hexp⟩
    · refine G.settled k v hmem ?_
      intro hc
      rcases List.mem_cons.mp hc with h | h
      · exact heq h
      · exact hnt h

lemma good_run (t : Timeouts) (now : Int) (m0 : CTMap)
    (Hnodup0 : (m0.map Prod.fst).Nodup)
    (Hproto : ∀ k v rk, (k, v) ∈ m0 → v.payload = .natForward rk →
      k.proto = rk.proto)
    (Hchain : ∀ k v rk w, (k, v) ∈ m0 → v.payload = .natForward rk →
      (rk, w) ∈ m0 → fwdTarget w = none) :
    ∀ (todo : List (Key × Value)) (cur : CTMap),
      GoodState t now m0 cur todo →
      GoodState t now m0 (scanPassAux t now cur todo) [] := by
  intro todo
  induction todo with
  | nil => exact fun cur G => G
  | cons e rest ih =>
    intro cur G
    exact ih _ (good_step t now m0 Hnodup0 Hproto Hchain cur e rest G)

lemma no_deletions (t : Timeouts) (now : Int) (M : CTMap)
    (hnd : (M.map Prod.fst).Nodup)
    (hs : ∀ k v, (k, v) ∈ M → Settled t now M k v) :
    ∀ todo, (∀ e, e ∈ todo → e ∈ M) → scanDeletionsAux t now M todo = [] := by
  intro todo
  induction todo with
  | nil => intro _; rfl
  | cons e rest ih =>
    intro hsub
    obtain ⟨k0, v0⟩ := e
    have hmem : (k0, v0) ∈ M := hsub _ (List.mem_cons_self _ _)
    have hok : ScanEntry t now k0 v0 (mapGet M) = .ok := by
      rcases hs k0 v0 hmem with ⟨hft, hexp⟩ | ⟨rk, w, hpay, hmemw, hwt, hexp⟩
      · rw [ScanEntry_nonforward t now k0 v0 _ hft, hexp]
        simp
      · rw [ScanEntry_forward t now k0 v0 rk _ hpay,
          mapGet_of_mem hnd hmemw]
        dsimp only
        rw [hexp]
        simp
    have hne : ¬ ScanEntry t now k0 v0 (mapGet M) = .delete := by
      rw [hok]
      simp
    show scanDeletionsAux t now M ((k0, v0) :: rest) = []
    simp only [scanDeletionsAux]
    rw [if_neg hne]
    exact ih (fun e he => hsub _ (List.mem_cons_of_mem _ he))

lemma protoConsistent_of_B {m : CTMap} (h : protoConsistentB m = true) :
    ∀ k v rk, (k, v) ∈ m → v.payload = .natForward rk → k.proto = rk.proto := by
  intro k v rk hmem hpay
  have h2 := List.all_eq_true.mp h (k, v) hmem
  dsimp only at h2
  rw [fwdTarget_forward hpay] at h2
  simpa using h2

lemma noFwdChain_of_B {m : CTMap} (hnd : (m.map Prod.fst).Nodup)
    (h : noFwdChainB m = true) :
    ∀ k v rk w, (k, v) ∈ m → v.payload = .natForward rk → (rk, w) ∈ m →
      fwdTarget w = none := by
  intro k v rk w hmem hpay hmw
  have h2 := List.all_eq_true.mp h (k, v) hmem
  dsimp only at h2
  rw [fwdTarget_forward hpay] at h2
  dsimp only at h2
  rw [mapGet_of_mem hnd hmw] at h2
  simpa using h2

/-- C3 (amended): on a conntrack table whose NAT-Forward entries are
proto-consistent with the reverse key they point at and never point at another
NAT-Forward entry, a second liveness scan run immediately after a completed
pass with the same injected now deletes zero entries. -/
theorem C3_second_pass_no_deletions (t : Timeouts) (now : Int) (m : CTMap)
    (h1 : (m.map Prod.fst).Nodup)
    (h2 : protoConsistentB m = true)
    (h3 : noFwdChainB m = true) :
    scanDeletions t now (scanPass t now m) = [] := by
  have Hproto := protoConsistent_of_B h2
  have Hchain := noFwdChain_of_B h1 h3
  have G0 : GoodState t now m m m :=
    ⟨fun e he => he, fun e he => he, h1, fun k v hm hn => absurd hm hn⟩
  have G1 := good_run t now m h1 Hproto Hchain m m G0
  have hset : ∀ k v, (k, v) ∈ scanPassAux t now m m →
      Settled t now (scanPassAux t now m m) k v :=
    fun k v hm => G1.settled k v hm (List.not_mem_nil _)
  exact no_deletions t now (scanPassAux t now m m) G1.curNodup hset
    (scanPassAux t now m m) (fun e he => he)

def c3kF : Key := ⟨6, 10, 1000, 20, 2000⟩

def c3kR : Key := ⟨17, 11, 1111, 21, 2222⟩

def c3vR : Value := ⟨0, 0, false, ⟨true, false, false, false⟩, .natReverse 30 80 0⟩

def c3vF : Value := ⟨0, 0, false, ⟨false, false, false, false⟩, .natForward c3kR⟩

/-- C3 counterexample: a table whose NAT-Forward key carries protocol TCP while
the reverse key it points at carries UDP.  The first pass keeps the forward
entry (its reverse entry is not expired under the TCP rules) but deletes the
reverse entry (expired under the UDP rule); the second pass with the same now
then deletes the forward entry, so the rerun does not delete zero entries. -/
theorem C3_second_pass_counterexample :
    scanDeletions DefaultTimeouts 1800000000000
      [(c3kF, c3vF), (c3kR, c3vR)] = [c3kR] ∧
    scanDeletions DefaultTimeouts 1800000000000
      (scanPass DefaultTimeouts 1800000000000 [(c3kF, c3vF), (c3kR, c3vR)]) =
      [c3kF] :=
  ⟨by decide, by decide⟩

def c3wkF : Key := ⟨6, 10, 1000, 20, 2000⟩

def c3wkR : Key := ⟨6, 11, 1111, 21, 2222⟩

def c3wvR : Value := ⟨0, 0, false, ⟨true, false, false, false⟩, .natReverse 30 80 0⟩

def c3wvF : Value := ⟨0, 0, false, ⟨false, false, false, false⟩, .natForward c3wkR⟩

/-- C3 witness: the amended statement applied to a concrete proto-consistent
two-entry table. -/
theorem C3_second_pass_no_deletions_witness :
    (([(c3wkF, c3wvF), (c3wkR, c3wvR)].map Prod.fst).Nodup) ∧
    protoConsistentB [(c3wkF, c3wvF), (c3wkR, c3wvR)] = true ∧
    noFwdChainB [(c3wkF, c3wvF), (c3wkR, c3wvR)] = true ∧
    scanDeletions DefaultTimeouts 1800000000000
      (scanPass DefaultTimeouts 1800000000000
        [(c3wkF, c3wvF), (c3wkR, c3wvR)]) = [] :=
  ⟨by decide, by decide, by decide,
   C3_second_pass_no_deletions DefaultTimeouts 1800000000000
     [(c3wkF, c3wvF), (c3wkR, c3wvR)] (by decide) (by decide) (by decide)⟩

/-- C6: the stale-NAT scanner deletes a NAT-Reverse entry exactly when the
frontendHasBackend predicate rejects both endpoint tuples (orig paired with
leg A, and orig paired with leg B), and it never deletes a Normal entry. -/
theorem C6_stale_nat_scanner (chk : NATChecker) (k : Key) (g : EntryGet)
    (c ls : Int) (dsr : Bool) (d : CTData) (o p tr : Nat) :
    (NewStaleNATScanner chk k ⟨c, ls, dsr, d, .natReverse o p tr⟩ g = .delete ↔
      (chk o p k.addrA k.portA k.proto = false ∧
       chk o p k.addrB k.portB k.proto = false)) ∧
    NewStaleNATScanner chk k ⟨c, ls, dsr, d, .normal⟩ g = .ok := by
  constructor
  · unfold NewStaleNATScanner
    rcases hc1 : chk o p k.addrA k.portA k.proto <;>
      rcases hc2 : chk o p k.addrB k.portB k.proto <;>
        simp [hc1, hc2]
  · rfl

end Conntrack

namespace TC

/-- TC action codes from linux/pkt_cls.h. -/
def TC_ACT_UNSPEC : Int := -1

def TC_ACT_SHOT : Int := 2

def TC_ACT_REDIRECT : Int := 7

/-- Modelled from the spec: the internal same-interface-redirect sentinel
CALI_RES_REDIR_IFINDEX (bpf.h is not in the tree); only its distinctness from
the TC action codes matters. -/
def CALI_RES_REDIR_IFINDEX : Int := 100

/-- Modelled from the spec (6): distinct 32-bit frame-mark sentinel values
(skb.h is not in the tree); representative distinct numbers. -/
def CALI_SKB_MARK_BYPASS : Nat := 0xca100001

def CALI_SKB_MARK_BYPASS_FWD : Nat := 0xca100002

def CALI_SKB_MARK_BYPASS_FWD_SRC_FIXUP : Nat := 0xca100003

def CALI_SKB_MARK_SEEN : Nat := 0xca100004

def CALI_SKB_MARK_NAT_OUT : Nat := 0xca100005

def ETH_P_IP : Nat := 0x0800

def ETH_P_ARP : Nat := 0x0806

def ETH_P_IPV6 : Nat := 0x86DD

def IPPROTO_TCP : Nat := 6

def IPPROTO_UDP : Nat := 17

def IPPROTO_ICMP : Nat := 1

def CALI_VXLAN_PORT : Nat := 4789

/-- host_to_be16 as a byte swap on 16-bit values. -/
def host_to_be16 (n : Nat) : Nat := (n % 256) * 256 + (n / 256) % 256

/-- The hook the program is compiled for (CALI_F_FROM_WEP etc.). -/
inductive Hook where
  | fromWep
  | toWep
  | fromHep
  | toHep
deriving DecidableEq, Repr

/-- Compile-time configuration of the TC program. -/
structure Globals where
  hook : Hook
  fibLookupEnabled : Bool
  dropWorkloadToHost : Bool
  dsr : Bool
  dnatDecapEnabled : Bool
  dnatEncapEnabled : Bool
  dnatReturnEncapEnabled : Bool
  hostIP : Nat

def Globals.fromWep (g : Globals) : Bool := g.hook == .fromWep

def Globals.toWep (g : Globals) : Bool := g.hook == .toWep

def Globals.fromHep (g : Globals) : Bool := g.hook == .fromHep

def Globals.toHep (g : Globals) : Bool := g.hook == .toHep

/-- CALI_F_TO_HOST: traffic heading into the host namespace. -/
def Globals.toHost (g : Globals) : Bool := g.fromWep || g.fromHep

/-- CALI_F_WEP: the program sits on a workload interface. -/
def Globals.wep (g : Globals) : Bool := g.fromWep || g.toWep

/-- CALI_F_HEP: the program sits on a host interface. -/
def Globals.hep (g : Globals) : Bool := g.fromHep || g.toHep

/-- CALI_F_INGRESS: the program is attached at the ingress hook. -/
def Globals.ingress (g : Globals) : Bool := g.toHost

/-- dnat_should_decap() of nat.h; nat.h is not in the tree, modelled from the
spec (4.A): decap only on host-ingress with DNAT-decap enabled. -/
def dnat_should_decap (g : Globals) : Bool := g.fromHep && g.dnatDecapEnabled

/-- dnat_should_encap() of nat.h, modelled from the spec as a compile-time
configuration switch; the remote-backend condition is checked separately via
the route table. -/
def dnat_should_encap (g : Globals) : Bool := g.dnatEncapEnabled

/-- dnat_return_should_encap() of nat.h, modelled from the spec as a
compile-time configuration switch. -/
def dnat_return_should_encap (g : Globals) : Bool := g.dnatReturnEncapEnabled

/-- Modelled from the spec (3.5): route flags (routes.h is not in the tree). -/
structure RtFlags where
  localFlag : Bool
  hostFlag : Bool
  workloadFlag : Bool
  inPool : Bool
  natOut : Bool
deriving DecidableEq, Repr

def emptyRtFlags : RtFlags := ⟨false, false, false, false, false⟩

/-- Modelled from the spec (3.5): a route table entry. -/
structure Rt where
  flags : RtFlags
  ifIndex : Nat
  nextHop : Nat
deriving DecidableEq, Repr

def cali_rt_flags_local_host (f : RtFlags) : Bool := f.localFlag && f.hostFlag

def cali_rt_flags_local_workload (f : RtFlags) : Bool :=
  f.localFlag && f.workloadFlag

def cali_rt_is_local (r : Rt) : Bool := r.flags.localFlag

def cali_rt_is_workload (r : Rt) : Bool := r.flags.workloadFlag

/-- calico_nat_dest. -/
structure NatDest where
  addr : Nat
  port : Nat
deriving DecidableEq, Repr

/-- Conntrack lookup result codes (CALI_CT_*). -/
inductive CTRc where
  | new
  | established
  | establishedBypass
  | establishedDNAT
  | establishedSNAT
  | invalid
deriving DecidableEq, Repr

/-- Conntrack lookup result as consumed by tc.c: result code, the NAT-outgoing
flag, the translation fields and the return-tunnel IP. -/
structure CTResult where
  rc : CTRc
  flagNatOut : Bool
  natIP : Nat
  natPort : Nat
  tunRetIP : Nat
deriving DecidableEq, Repr

/-- The ct_ctx fields relevant to the conntrack lookup. -/
structure CtCtx where
  proto : Nat
  src : Nat
  sport : Nat
  dst : Nat
  dport : Nat
  natTunSrc : Nat
deriving DecidableEq, Repr

/-- The parsed view of the frame, with the kernel-checked predicates
(skb_too_short, skb_has_data_after, ip_is_dnf, vxlan_v4_encap_too_big,
skb_is_gso, ip_frag_no, skb_shorter(ETH_IPV4_UDP_SIZE)) as fields. -/
structure Pkt where
  mark : Nat
  ethProto : Nat
  ifindex : Nat
  tooShort : Bool
  ipProto : Nat
  saddr : Nat
  daddr : Nat
  sport : Nat
  dport : Nat
  ttl : Nat
  isVxlan : Bool
  shortForTCP : Bool
  isGSO : Bool
  dnf : Bool
  encapTooBig : Bool
  fragNo : Bool
  shortEthUdp : Bool
deriving DecidableEq, Repr

/-- ip_ttl_exceeded. -/
def ip_ttl_exceeded (p : Pkt) : Bool := p.ttl ≤ 1

/-- The kernel and control-plane environment the program runs against:
map contents and helper outcomes. -/
structure World where
  ctLookup : CtCtx → CTResult
  natLookup : Nat → Nat → Nat → Nat → Bool → Option NatDest
  rtLookup : Nat → Option Rt
  decap : Pkt → Option Pkt
  stateMapOk : Bool
  encapOk : Bool
  csumOk : Bool
  icmpTooBigOk : Bool
  icmpTtlOk : Bool
  fibHit : Bool
  redirectOk : Bool

/-- cali_rt_lookup_flags: flags of the route for an IP, no flags on a miss. -/
def rtLookupFlags (w : World) (ip : Nat) : RtFlags :=
  match w.rtLookup ip with
  | some r => r.flags
  | none => emptyRtFlags

/-- calico_policy_result. -/
inductive PolRc where
  | noMatch
  | allow
  | deny
deriving DecidableEq, Repr

/-- Drop reason codes (reasons.h). -/
inductive Reason where
  | unknown
  | bypass
  | short
  | csumFail
  | decapFail
  | encapFail
  | icmpDF
  | rtUnknown
deriving DecidableEq, Repr

/-- The cali_tc_state fields used by the embedded control flow. -/
structure CtState where
  ipProto : Nat
  ipSrc : Nat
  ipDst : Nat
  sport : Nat
  dport : Nat
  postNatIpDst : Nat
  postNatDport : Nat
  natTunSrc : Nat
  polRc : PolRc
  natOutgoing : Bool
  ctResult : CTResult
  natDest : NatDest
deriving DecidableEq, Repr

/-- Side effects on shared maps observed during a run. -/
inductive Ev where
  | ctLookup
  | stateMapWrite
  | conntrackCreate (natPair : Bool) (dsrFwd : Bool)
deriving DecidableEq, Repr

/-- The fwd structure returned by calico_tc_skb_accepted. -/
structure Fwd where
  res : Int
  mark : Nat
  reason : Reason
  fib : Bool
  fibFlagOutput : Bool
deriving DecidableEq, Repr

/-- An allow-style fwd result (the allow label of calico_tc_skb_accepted). -/
def fwdAllow (rc : Int) (mark : Nat) (fib fibOut : Bool) : Fwd :=
  { res := rc, mark := mark, reason := .unknown, fib := fib,
    fibFlagOutput := fibOut }

/-- A deny-style fwd result (the deny label of calico_tc_skb_accepted). -/
def fwdDeny (reason : Reason) : Fwd :=
  { res := TC_ACT_SHOT, mark := 0, reason := reason, fib := false,
    fibFlagOutput := false }

/-- The icmp_ttl_exceeded label of calico_tc_skb_accepted. -/
def icmp_ttl_exceeded_path (w : World) (pkt : Pkt) (st : CtState)
    (seenMark : Nat) (fib : Bool) (evs : List Ev) : Fwd × CtState × List Ev :=
  if pkt.tooShort then (fwdDeny .short, st, evs)
  else if pkt.fragNo then (fwdDeny .unknown, st, evs)
  else if !w.icmpTtlOk then (fwdDeny .unknown, st, evs)
  else (fwdAllow TC_ACT_UNSPEC seenMark fib false, st, evs)

/-- The icmp_too_big label of calico_tc_skb_accepted: on success the frame is
rewritten into an ICMP frag-needed reply and allowed out (redirected back for
from-workload hooks); ICMP_DF is only recorded when the rewrite fails. -/
def icmp_too_big_path (g : Globals) (w : World) (pkt : Pkt) (st : CtState)
    (fib : Bool) (evs : List Ev) : Fwd × CtState × List Ev :=
  if pkt.shortEthUdp then (fwdDeny .short, st, evs)
  else if !w.icmpTooBigOk then (fwdDeny .icmpDF, st, evs)
  else
    let st2 := { st with sport := 0, dport := 0, ipProto := IPPROTO_ICMP }
    let rc := if g.fromWep then CALI_RES_REDIR_IFINDEX else TC_ACT_UNSPEC
    (fwdAllow rc CALI_SKB_MARK_BYPASS_FWD fib true, st2, evs)

/-- The nat_encap label of calico_tc_skb_accepted. -/
def nat_encap_path (g : Globals) (w : World) (st : CtState) (seenMark : Nat)
    (fib : Bool) (evs : List Ev) : Fwd × CtState × List Ev :=
  if !w.encapOk then (fwdDeny .encapFail, st, evs)
  else
    let st2 := { st with sport := host_to_be16 CALI_VXLAN_PORT,
                         dport := host_to_be16 CALI_VXLAN_PORT,
                         ipProto := IPPROTO_UDP }
    (fwdAllow TC_ACT_UNSPEC seenMark fib g.ingress, st2, evs)

/-- The non-encap DNAT rewrite tail of calico_tc_skb_accepted: apply the
destination rewrite with incremental checksums, then allow. -/
def dnat_rewrite (w : World) (st : CtState) (seenMark : Nat) (fib : Bool)
    (evs : List Ev) : Fwd × CtState × List Ev :=
  if !w.csumOk then (fwdDeny .csumFail, st, evs)
  else
    let st2 := { st with dport := st.postNatDport, ipDst := st.postNatIpDst }
    (fwdAllow TC_ACT_UNSPEC seenMark fib false, st2, evs)

/-- The shared DNAT tail of calico_tc_skb_accepted, entered from CALI_CT_NEW
with a NAT destination (wasNew) or from CALI_CT_ESTABLISHED_DNAT: route and
encap determination, conntrack creation for new flows, MTU check, and either
VXLAN encap or in-place destination rewrite. -/
def dnat_after (g : Globals) (w : World) (pkt : Pkt) (st : CtState)
    (wasNew : Bool) (seenMark : Nat) (fib : Bool) (evs : List Ev) :
    Fwd × CtState × List Ev :=
  if dnat_should_encap g then
    match w.rtLookup st.postNatIpDst with
    | none => (fwdDeny .rtUnknown, st, evs)
    | some rt =>
      let encapNeeded := !(cali_rt_is_local rt)
      let dsrFwd := g.dsr && g.fromHep && encapNeeded && st.natTunSrc == 0
      let evs2 := if wasNew then evs ++ [Ev.conntrackCreate true dsrFwd] else evs
      if encapNeeded then
        if !(st.ipProto == IPPROTO_TCP && pkt.isGSO) && pkt.dnf &&
            pkt.encapTooBig then
          icmp_too_big_path g w pkt st fib evs2
        else
          let st2 := { st with
            ipSrc := g.hostIP,
            ipDst := if cali_rt_is_workload rt then rt.nextHop
                     else st.postNatIpDst }
          nat_encap_path g w st2 CALI_SKB_MARK_BYPASS_FWD fib evs2
      else dnat_rewrite w st seenMark fib evs2
  else
    let evs2 := if wasNew then evs ++ [Ev.conntrackCreate true false] else evs
    dnat_rewrite w st seenMark fib evs2

/-- The SNAT apply tail of calico_tc_skb_accepted. -/
def snat_apply (g : Globals) (w : World) (st : CtState) (seenMark : Nat)
    (fib : Bool) (evs : List Ev) : Fwd × CtState × List Ev :=
  if !w.csumOk then (fwdDeny .csumFail, st, evs)
  else if dnat_return_should_encap g && st.ctResult.tunRetIP != 0 then
    let st2 := { st with ipDst := st.ctResult.tunRetIP }
    nat_encap_path g w st2 CALI_SKB_MARK_BYPASS_FWD_SRC_FIXUP fib evs
  else
    let st2 := { st with sport := st.ctResult.natPort,
                         ipSrc := st.ctResult.natIP }
    (fwdAllow TC_ACT_UNSPEC seenMark fib false, st2, evs)

/-- The CALI_CT_ESTABLISHED_SNAT case of calico_tc_skb_accepted. -/
def snat_case (g : Globals) (w : World) (pkt : Pkt) (st : CtState)
    (seenMark : Nat) (fib : Bool) (evs : List Ev) : Fwd × CtState × List Ev :=
  if dnat_return_should_encap g && st.ctResult.tunRetIP != 0 then
    if g.dsr then (fwdAllow TC_ACT_UNSPEC seenMark fib false, st, evs)
    else if !(st.ipProto == IPPROTO_TCP && pkt.isGSO) && pkt.dnf &&
        pkt.encapTooBig then
      icmp_too_big_path g w pkt st fib evs
    else snat_apply g w st seenMark fib evs
  else snat_apply g w st seenMark fib evs

/-- calico_tc_skb_accepted of tc.c: the post-policy packet processing, from the
TTL pre-check through the conntrack-result switch to the allow / deny labels.
Returns the fwd structure, the final state and the map-write events. -/
def calico_tc_skb_accepted (g : Globals) (w : World) (pkt : Pkt)
    (state : CtState) (natDest : Option NatDest) : Fwd × CtState × List Ev :=
  let seenMark := if g.fromWep && state.natOutgoing then CALI_SKB_MARK_NAT_OUT
                  else CALI_SKB_MARK_SEEN
  let fib := !(g.fromWep && state.natOutgoing)
  if ip_ttl_exceeded pkt &&
      (match state.ctResult.rc with
       | .new => natDest.isSome
       | .establishedDNAT => true
       | .establishedSNAT => true
       | _ => false) then
    icmp_ttl_exceeded_path w pkt state seenMark fib []
  else
    match state.ctResult.rc with
    | .new =>
      match state.polRc with
      | .noMatch => (fwdDeny .unknown, state, [])
      | .deny => (fwdDeny .unknown, state, [])
      | .allow =>
        if g.fromWep && g.dropWorkloadToHost &&
            cali_rt_flags_local_host (rtLookupFlags w state.postNatIpDst) then
          (fwdDeny .unknown, state, [])
        else if state.ipProto == IPPROTO_TCP && pkt.shortForTCP then
          (fwdDeny .unknown, state, [])
        else
          match natDest with
          | none =>
            (fwdAllow TC_ACT_UNSPEC seenMark fib false, state,
             [Ev.conntrackCreate false false])
          | some _ => dnat_after g w pkt state true seenMark fib []
    | .establishedDNAT =>
      if g.fromHep && state.natTunSrc != 0 && state.ctResult.tunRetIP == 0 then
        (fwdAllow TC_ACT_UNSPEC CALI_SKB_MARK_BYPASS_FWD fib false, state, [])
      else
        let st2 := { state with postNatIpDst := state.ctResult.natIP,
                                postNatDport := state.ctResult.natPort }
        dnat_after g w pkt st2 false seenMark fib []
    | .establishedSNAT => snat_case g w pkt state seenMark fib []
    | .establishedBypass =>
      (fwdAllow TC_ACT_UNSPEC CALI_SKB_MARK_BYPASS fib false, state, [])
    | .established =>
      (fwdAllow TC_ACT_UNSPEC seenMark fib false, state, [])
    | .invalid =>
      if g.fromHep then
        (fwdAllow TC_ACT_UNSPEC seenMark false false, state, [])
      else (fwdDeny .unknown, state, [])

/-- FIB_ENABLED of tc.c (CALI_F_L3 is false for the TC programs). -/
def fib_enabled (g : Globals) : Bool := g.fibLookupEnabled && g.toHost

/-- forward_or_drop of tc.c, as the TC verdict it returns. -/
def forward_or_drop (g : Globals) (w : World) (pkt : Pkt) (fwd : Fwd) : Int :=
  if fwd.res == TC_ACT_SHOT then TC_ACT_SHOT
  else if fwd.res == CALI_RES_REDIR_IFINDEX then
    if pkt.tooShort then TC_ACT_SHOT
    else if w.redirectOk then TC_ACT_REDIRECT
    else TC_ACT_SHOT
  else if fib_enabled g && fwd.fib then
    if pkt.tooShort then TC_ACT_SHOT
    else if w.fibHit then
      if ip_ttl_exceeded pkt then TC_ACT_UNSPEC else TC_ACT_REDIRECT
    else TC_ACT_UNSPEC
  else fwd.res

/-- The fate of a frame in calico_tc: a direct TC verdict, a tail call into the
policy program, a tail call into the epilogue program (host endpoints), or the
inline skip_policy path recording the state passed to calico_tc_skb_accepted
together with the final verdict. -/
inductive TCFate where
  | ret (res : Int)
  | jumpPolicy (st : CtState)
  | jumpEpilogue (st : CtState)
  | acceptedRet (st : CtState) (res : Int)
deriving DecidableEq, Repr

/-- The skip_policy label of calico_tc: run calico_tc_skb_accepted inline and
finish through forward_or_drop. -/
def skip_policy (g : Globals) (w : World) (pkt : Pkt) (st : CtState)
    (natDest : Option NatDest) (evs : List Ev) : TCFate × List Ev :=
  let r := calico_tc_skb_accepted g w pkt st natDest
  (.acceptedRet st (forward_or_drop g w pkt r.1), evs ++ r.2.2)

/-- The tail of calico_tc from the state-map write to the tail calls. -/
def pre_jump (g : Globals) (w : World) (st : CtState)
    (natDest : Option NatDest) (evs : List Ev) : TCFate × List Ev :=
  if !w.stateMapOk then (.ret TC_ACT_SHOT, evs)
  else
    let st2 := { st with
      polRc := .noMatch,
      natDest := (match natDest with | some nd => nd | none => ⟨0, 0⟩) }
    if g.hep then
      (.jumpEpilogue { st2 with polRc := .allow }, evs ++ [Ev.stateMapWrite])
    else (.jumpPolicy st2, evs ++ [Ev.stateMapWrite])

/-- calico_tc of tc.c after ethertype / length / VXLAN handling: port
extraction, conntrack lookup, NAT lookup, the host-to-workload allow shortcut,
the workload RPF check and the dispatch towards policy. -/
def calico_tc_parsed (g : Globals) (w : World) (pkt : Pkt) (natTunSrc : Nat) :
    TCFate × List Ev :=
  if pkt.ipProto == IPPROTO_TCP && pkt.shortForTCP then (.ret TC_ACT_SHOT, [])
  else if pkt.ipProto == 4 && g.hep then
    (.ret (forward_or_drop g w pkt (fwdAllow TC_ACT_UNSPEC 0 false false)), [])
  else
    let isPort := pkt.ipProto == IPPROTO_TCP || pkt.ipProto == IPPROTO_UDP
    let sport := if isPort then pkt.sport else 0
    let dport := if isPort then pkt.dport else 0
    if !(isPort || pkt.ipProto == IPPROTO_ICMP) then
      if g.hep then
        (.ret (forward_or_drop g w pkt (fwdAllow TC_ACT_UNSPEC 0 true false)),
         [])
      else (.ret TC_ACT_SHOT, [])
    else
      let ctx : CtCtx := ⟨pkt.ipProto, pkt.saddr, sport, pkt.daddr, dport,
        natTunSrc⟩
      let ctRes := w.ctLookup ctx
      let st0 : CtState := {
        ipProto := pkt.ipProto, ipSrc := pkt.saddr, ipDst := pkt.daddr,
        sport := sport, dport := dport,
        postNatIpDst := 0, postNatDport := 0,
        natTunSrc := natTunSrc, polRc := .noMatch,
        natOutgoing := ctRes.flagNatOut,
        ctResult := ctRes, natDest := ⟨0, 0⟩ }
      if !(ctRes.rc == .new) then skip_policy g w pkt st0 none [Ev.ctLookup]
      else
        let natDest := w.natLookup pkt.saddr pkt.daddr pkt.ipProto dport
          (natTunSrc != 0)
        let st1 := { st0 with
          postNatIpDst := (match natDest with
            | some nd => nd.addr
            | none => pkt.daddr),
          postNatDport := (match natDest with
            | some nd => nd.port
            | none => dport) }
        if g.toWep && !(pkt.mark == CALI_SKB_MARK_SEEN) &&
            cali_rt_flags_local_host (rtLookupFlags w pkt.saddr) then
          skip_policy g w pkt { st1 with polRc := .allow } natDest [Ev.ctLookup]
        else if g.fromWep then
          match w.rtLookup pkt.saddr with
          | none => (.ret TC_ACT_SHOT, [Ev.ctLookup])
          | some r =>
            if !(cali_rt_flags_local_workload r.flags) then
              (.ret TC_ACT_SHOT, [Ev.ctLookup])
            else if !(r.ifIndex == pkt.ifindex) then
              (.ret TC_ACT_SHOT, [Ev.ctLookup])
            else
              let st2 := if r.flags.natOut &&
                  !(rtLookupFlags w st1.postNatIpDst).inPool then
                { st1 with natOutgoing := true }
              else st1
              pre_jump g w st2 natDest [Ev.ctLookup]
        else pre_jump g w st1 natDest [Ev.ctLookup]

/-- calico_tc of tc.c: from the bypass-mark shortcuts through ethertype
dispatch, length validation and VXLAN decap into calico_tc_parsed. -/
def calico_tc (g : Globals) (w : World) (pkt : Pkt) : TCFate × List Ev :=
  if !g.toHost && pkt.mark == CALI_SKB_MARK_BYPASS then
    (.ret (forward_or_drop g w pkt (fwdAllow TC_ACT_UNSPEC 0 true false)), [])
  else if (g.toHep || g.toWep) && pkt.mark == CALI_SKB_MARK_BYPASS_FWD then
    (.ret (forward_or_drop g w pkt (fwdAllow TC_ACT_UNSPEC 0 true false)), [])
  else if (g.toHep || g.toWep) &&
      pkt.mark == CALI_SKB_MARK_BYPASS_FWD_SRC_FIXUP then
    if pkt.tooShort then (.ret TC_ACT_SHOT, [])
    else if pkt.saddr == g.hostIP then
      (.ret (forward_or_drop g w pkt (fwdAllow TC_ACT_UNSPEC 0 true false)), [])
    else if !w.csumOk then (.ret TC_ACT_SHOT, [])
    else
      (.ret (forward_or_drop g w pkt (fwdAllow TC_ACT_UNSPEC 0 true false)), [])
  else if pkt.ethProto == ETH_P_ARP then
    (.ret (forward_or_drop g w pkt (fwdAllow TC_ACT_UNSPEC 0 false false)), [])
  else if pkt.ethProto == ETH_P_IPV6 then
    if g.wep then (.ret TC_ACT_SHOT, []) else (.ret TC_ACT_UNSPEC, [])
  else if !(pkt.ethProto == ETH_P_IP) then
    if g.wep then (.ret TC_ACT_SHOT, []) else (.ret TC_ACT_UNSPEC, [])
  else if pkt.tooShort then (.ret TC_ACT_SHOT, [])
  else if pkt.isVxlan && dnat_should_decap g && pkt.daddr == g.hostIP then
    match w.decap pkt with
    | none => (.ret TC_ACT_SHOT, [])
    | some inner =>
      if inner.tooShort then (.ret TC_ACT_SHOT, [])
      else calico_tc_parsed g w inner pkt.saddr
  else calico_tc_parsed g w pkt 0

/-- Modelled from the spec (4.D): one compiled policy rule of the generated
RULE_START / RULE_END blocks, which are produced by the control plane and are
not in the tree: a match predicate over the 5-tuple and an allow or deny
action. -/
structure PolRule where
  ruleMatches : Nat → Nat → Nat → Nat → Nat → Bool
  allowAction : Bool

/-- execute_policy_norm of tc.c for a normal build: first matching rule wins
via its allow or deny label; the fall-through result of the generated rule
program is CALI_POL_NO_MATCH. -/
def execute_policy_norm (rules : List PolRule)
    (ipProto saddr daddr sport dport : Nat) : PolRc :=
  match rules.find? (fun r => r.ruleMatches ipProto saddr daddr sport dport) with
  | some r => if r.allowAction then .allow else .deny
  | none => .noMatch

/-- C2: a frame whose mark is the bypass sentinel on a hook that is not
to-host gets the pass verdict immediately, with no conntrack lookup and no
map write. -/
theorem C2_bypass_mark_pass (g : Globals) (w : World) (pkt : Pkt)
    (h1 : g.toHost = false) (h2 : pkt.mark = CALI_SKB_MARK_BYPASS) :
    calico_tc g w pkt = (.ret TC_ACT_UNSPEC, []) := by
  unfold calico_tc
  rw [h1, h2]
  simp [forward_or_drop, fib_enabled, fwdAllow, h1, TC_ACT_UNSPEC, TC_ACT_SHOT,
    CALI_RES_REDIR_IFINDEX]

def c2g : Globals :=
  ⟨.toWep, true, false, false, false, false, false, 0x0a000001⟩

def c2w : World where
  ctLookup := fun _ => ⟨.new, false, 0, 0, 0⟩
  natLookup := fun _ _ _ _ _ => none
  rtLookup := fun _ => none
  decap := fun _ => none
  stateMapOk := true
  encapOk := true
  csumOk := true
  icmpTooBigOk := true
  icmpTtlOk := true
  fibHit := true
  redirectOk := true

def c2pkt : Pkt :=
  ⟨CALI_SKB_MARK_BYPASS, ETH_P_IP, 3, false, IPPROTO_TCP, 0x0a000002,
   0x0a000003, 40000, 80, 64, false, false, false, false, false, false, false⟩

/-- C2 witness: the theorem applied on a to-workload hook at a concrete
bypass-marked frame. -/
theorem C2_bypass_mark_pass_witness :
    c2g.toHost = false ∧ c2pkt.mark = CALI_SKB_MARK_BYPASS ∧
    calico_tc c2g c2w c2pkt = (.ret TC_ACT_UNSPEC, []) :=
  ⟨by decide, rfl, C2_bypass_mark_pass c2g c2w c2pkt (by decide) rfl⟩

/-- C9: on a from-workload hook, a packet whose conntrack lookup returns NEW is
dropped unless the route of its source address exists, is flagged as a local
workload, and carries the packet's ingress interface index. -/
theorem C9_from_wep_rpf (g : Globals) (w : World) (pkt : Pkt)
    (hg : g.hook = .fromWep)
    (heth : pkt.ethProto = ETH_P_IP)
    (hshort : pkt.tooShort = false)
    (hproto : pkt.ipProto = IPPROTO_TCP ∨ pkt.ipProto = IPPROTO_UDP ∨
      pkt.ipProto = IPPROTO_ICMP)
    (hct : ∀ c, (w.ctLookup c).rc = .new)
    (hrpf : ∀ r, w.rtLookup pkt.saddr = some r →
      ¬(cali_rt_flags_local_workload r.flags = true ∧
        r.ifIndex = pkt.ifindex)) :
    (calico_tc g w pkt).1 = .ret TC_ACT_SHOT := by
  have hfromWep : g.fromWep = true := by simp [Globals.fromWep, hg]
  have hfromHep : g.fromHep = false := by simp [Globals.fromHep, hg]
  have htoWep : g.toWep = false := by simp [Globals.toWep, hg]
  have htoHep : g.toHep = false := by simp [Globals.toHep, hg]
  have htoHost : g.toHost = true := by
    simp [Globals.toHost, hfromWep]
  have hdecap : dnat_should_decap g = false := by
    simp [dnat_should_decap, hfromHep]
  have h4 : (pkt.ipProto == 4) = false := by
    rcases hproto with h | h | h <;>
      simp [h, IPPROTO_TCP, IPPROTO_UDP, IPPROTO_ICMP]
  have hip : ((pkt.ipProto == IPPROTO_TCP || pkt.ipProto == IPPROTO_UDP) ||
      pkt.ipProto == IPPROTO_ICMP) = true := by
    rcases hproto with h | h | h <;> simp [h]
  unfold calico_tc
  rw [htoHost, htoWep, htoHep, heth, hshort, hdecap]
  simp only [Bool.not_true, Bool.false_and, Bool.and_false, Bool.false_or,
    Bool.or_false, if_false, Bool.false_eq_true, ite_false]
  have harp : (ETH_P_IP == ETH_P_ARP) = false := by decide
  have hv6 : (ETH_P_IP == ETH_P_IPV6) = false := by decide
  have hipeq : (ETH_P_IP == ETH_P_IP) = true := by decide
  rw [harp, hv6, hipeq]
  simp only [Bool.not_true, Bool.false_eq_true, if_false, if_true,
    Bool.true_eq_false, ite_true]
  unfold calico_tc_parsed
  by_cases hts : (pkt.ipProto == IPPROTO_TCP && pkt.shortForTCP) = true
  · rw [if_pos hts]
  · rw [if_neg hts]
    rw [h4]
    simp only [Bool.false_and, Bool.false_eq_true, if_false, ite_false]
    rw [hip]
    simp only [Bool.not_true, Bool.false_eq_true, if_false, ite_false]
    rw [hct]
    simp only [beq_self_eq_true, Bool.not_true, Bool.false_eq_true, if_false,
      ite_false]
    rw [htoWep]
    simp only [Bool.false_and, Bool.false_eq_true, if_false, ite_false]
    rw [hfromWep]
    simp only [if_true, ite_true]
    cases hr : w.rtLookup pkt.saddr with
    | none => rfl
    | some r =>
      dsimp only
      by_cases hlw : cali_rt_flags_local_workload r.flags = true
      · have hif : (r.ifIndex == pkt.ifindex) = false := by
          have := hrpf r hr
          rw [not_and] at this
          have hne := this hlw
          simpa using hne
        rw [hlw]
        simp only [Bool.not_true, Bool.false_eq_true, if_false, ite_false]
        rw [hif]
        simp
      · have hlwf : cali_rt_flags_local_workload r.flags = false := by
          simpa using hlw
        rw [hlwf]
        simp

def c9g : Globals :=
  ⟨.fromWep, true, false, false, false, false, false, 0x0a000001⟩

def c9w : World where
  ctLookup := fun _ => ⟨.new, false, 0, 0, 0⟩
  natLookup := fun _ _ _ _ _ => none
  rtLookup := fun _ => none
  decap := fun _ => none
  stateMapOk := true
  encapOk := true
  csumOk := true
  icmpTooBigOk := true
  icmpTtlOk := true
  fibHit := true
  redirectOk := true

def c9pkt : Pkt :=
  ⟨0, ETH_P_IP, 7, false, IPPROTO_UDP, 0x0a000002, 0x0a000003, 40000, 53, 64,
   false, false, false, false, false, false, false⟩

/-- C9 witness: the theorem applied to a concrete from-workload packet whose
source has no route at all. -/
theorem C9_from_wep_rpf_witness :
    c9g.hook = .fromWep ∧ c9w.rtLookup c9pkt.saddr = none ∧
    (calico_tc c9g c9w c9pkt).1 = .ret TC_ACT_SHOT :=
  ⟨rfl, rfl,
   C9_from_wep_rpf c9g c9w c9pkt rfl rfl rfl (Or.inr (Or.inl rfl))
     (fun _ => rfl) (fun _r h => nomatch h)⟩

/-- C10: on a to-workload hook, a NEW flow whose frame mark is not the SEEN
sentinel and whose source address routes as the local host skips policy: the
packet goes straight to the accepted path with pol_rc already set to ALLOW. -/
theorem C10_to_wep_host_allow (g : Globals) (w : World) (pkt : Pkt)
    (hg : g.hook = .toWep)
    (hm1 : (pkt.mark == CALI_SKB_MARK_BYPASS) = false)
    (hm2 : (pkt.mark == CALI_SKB_MARK_BYPASS_FWD) = false)
    (hm3 : (pkt.mark == CALI_SKB_MARK_BYPASS_FWD_SRC_FIXUP) = false)
    (hmseen : (pkt.mark == CALI_SKB_MARK_SEEN) = false)
    (heth : pkt.ethProto = ETH_P_IP)
    (hshort : pkt.tooShort = false)
    (hproto : pkt.ipProto = IPPROTO_TCP ∨ pkt.ipProto = IPPROTO_UDP ∨
      pkt.ipProto = IPPROTO_ICMP)
    (htcp : (pkt.ipProto == IPPROTO_TCP && pkt.shortForTCP) = false)
    (hct : ∀ c, (w.ctLookup c).rc = .new)
    (hlh : cali_rt_flags_local_host (rtLookupFlags w pkt.saddr) = true) :
    ∃ st res, (calico_tc g w pkt).1 = .acceptedRet st res ∧
      st.polRc = .allow := by
  have htoWep : g.toWep = true := by simp [Globals.toWep, hg]
  have hfromWep : g.fromWep = false := by simp [Globals.fromWep, hg]
  have hfromHep : g.fromHep = false := by simp [Globals.fromHep, hg]
  have htoHep : g.toHep = false := by simp [Globals.toHep, hg]
  have htoHost : g.toHost = false := by
    simp [Globals.toHost, hfromWep, hfromHep]
  have hdecap : dnat_should_decap g = false := by
    simp [dnat_should_decap, hfromHep]
  have h4 : (pkt.ipProto == 4) = false := by
    rcases hproto with h | h | h <;>
      simp [h, IPPROTO_TCP, IPPROTO_UDP, IPPROTO_ICMP]
  have hip : ((pkt.ipProto == IPPROTO_TCP || pkt.ipProto == IPPROTO_UDP) ||
      pkt.ipProto == IPPROTO_ICMP) = true := by
    rcases hproto with h | h | h <;> simp [h]
  unfold calico_tc
  rw [htoHost, htoWep, htoHep, hm1, hm2, hm3, heth, hshort, hdecap]
  simp only [Bool.not_false, Bool.true_and, Bool.false_or, Bool.or_true,
    Bool.and_false, Bool.false_and, Bool.false_eq_true, if_false, ite_false]
  have harp : (ETH_P_IP == ETH_P_ARP) = false := by decide
  have hv6 : (ETH_P_IP == ETH_P_IPV6) = false := by decide
  have hipeq : (ETH_P_IP == ETH_P_IP) = true := by decide
  rw [harp, hv6, hipeq]
  simp only [Bool.not_true, Bool.false_eq_true, if_false, ite_false]
  unfold calico_tc_parsed
  rw [htcp]
  simp only [Bool.false_eq_true, if_false, ite_false]
  rw [h4]
  simp only [Bool.false_and, Bool.false_eq_true, if_false, ite_false]
  rw [hip]
  simp only [Bool.not_true, Bool.false_eq_true, if_false, ite_false]
  rw [hct]
  simp only [beq_self_eq_true, Bool.not_true, Bool.false_eq_true, if_false,
    ite_false]
  rw [htoWep, hmseen, hlh]
  simp only [Bool.not_false, Bool.true_and, Bool.and_true, if_true, ite_true]
  unfold skip_policy
  exact ⟨_, _, rfl, rfl⟩

def c10g : Globals :=
  ⟨.toWep, true, false, false, false, false, false, 0x0a000001⟩

def c10w : World where
  ctLookup := fun _ => ⟨.new, false, 0, 0, 0⟩
  natLookup := fun _ _ _ _ _ => none
  rtLookup := fun _ => some ⟨⟨true, true, false, false, false⟩, 4, 0⟩
  decap := fun _ => none
  stateMapOk := true
  encapOk := true
  csumOk := true
  icmpTooBigOk := true
  icmpTtlOk := true
  fibHit := true
  redirectOk := true

def c10pkt : Pkt :=
  ⟨0, ETH_P_IP, 7, false, IPPROTO_UDP, 0x0a000001, 0x0a000005, 40000, 53, 64,
   false, false, false, false, false, false, false⟩

/-- C10 witness: the theorem applied to a concrete host-to-workload packet. -/
theorem C10_to_wep_host_allow_witness :
    ∃ st res, (calico_tc c10g c10w c10pkt).1 = .acceptedRet st res ∧
      st.polRc = .allow :=
  C10_to_wep_host_allow c10g c10w c10pkt rfl rfl rfl rfl rfl rfl rfl
    (Or.inr (Or.inl rfl)) rfl (fun _ => rfl) rfl

/-- C7 (amended): on the encap path, a non-GSO frame with DF set that is too
big after VXLAN encap is turned into an ICMP frag-needed reply which is sent
back towards the source (redirect to the ingress interface on from-workload
hooks, pass otherwise); the original packet is not forwarded, and the ICMP_DF
drop reason is recorded only when synthesizing the reply fails, in which case
the frame is dropped. -/
theorem C7_encap_df_too_big (g : Globals) (w : World) (pkt : Pkt)
    (st : CtState) (nd : Option NatDest) (rt : Rt)
    (hrc : st.ctResult.rc = .establishedDNAT)
    (httl : ip_ttl_exceeded pkt = false)
    (htun : (g.fromHep && st.natTunSrc != 0 && st.ctResult.tunRetIP == 0) =
      false)
    (hencap : dnat_should_encap g = true)
    (hrt : w.rtLookup st.ctResult.natIP = some rt)
    (hlocal : cali_rt_is_local rt = false)
    (hgso : (st.ipProto == IPPROTO_TCP && pkt.isGSO) = false)
    (hdnf : pkt.dnf = true)
    (hbig : pkt.encapTooBig = true)
    (hshort2 : pkt.shortEthUdp = false) :
    (w.icmpTooBigOk = true →
      (calico_tc_skb_accepted g w pkt st nd).1.res =
        (if g.fromWep then CALI_RES_REDIR_IFINDEX else TC_ACT_UNSPEC) ∧
      (calico_tc_skb_accepted g w pkt st nd).1.res ≠ TC_ACT_SHOT ∧
      (calico_tc_skb_accepted g w pkt st nd).1.reason ≠ .icmpDF ∧
      (calico_tc_skb_accepted g w pkt st nd).2.1.ipProto = IPPROTO_ICMP ∧
      (calico_tc_skb_accepted g w pkt st nd).1.mark =
        CALI_SKB_MARK_BYPASS_FWD) ∧
    (w.icmpTooBigOk = false →
      (calico_tc_skb_accepted g w pkt st nd).1.res = TC_ACT_SHOT ∧
      (calico_tc_skb_accepted g w pkt st nd).1.reason = .icmpDF) := by
  have key : calico_tc_skb_accepted g w pkt st nd =
      icmp_too_big_path g w pkt
        { st with postNatIpDst := st.ctResult.natIP,
                  postNatDport := st.ctResult.natPort }
        (!(g.fromWep && st.natOutgoing)) [] := by
    unfold calico_tc_skb_accepted
    rw [httl, hrc]
    simp only [Bool.false_and, Bool.false_eq_true, if_false, ite_false]
    rw [htun]
    simp only [Bool.false_eq_true, if_false, ite_false]
    unfold dnat_after
    rw [hencap]
    simp only [if_true, ite_true, hrt]
    simp only [hlocal, hgso, hdnf, hbig, Bool.not_false, Bool.true_and,
      Bool.and_true, Bool.false_eq_true, if_false, ite_false, if_true,
      ite_true]
  constructor
  · intro hok
    rw [key]
    unfold icmp_too_big_path
    rw [hshort2, hok]
    simp only [Bool.not_true, Bool.false_eq_true, if_false, ite_false]
    unfold fwdAllow
    refine ⟨by trivial, ?_, ?_, by trivial, by trivial⟩
    · cases hfw : g.fromWep <;>
        simp [hfw, CALI_RES_REDIR_IFINDEX, TC_ACT_UNSPEC, TC_ACT_SHOT]
    · simp
  · intro hfail
    rw [key]
    unfold icmp_too_big_path
    rw [hshort2, hfail]
    simp only [Bool.not_false, Bool.false_eq_true, Bool.true_eq_false,
      if_false, ite_false, if_true, ite_true]
    unfold fwdDeny
    exact ⟨rfl, rfl⟩

def c7g : Globals :=
  ⟨.fromHep, true, false, false, false, true, false, 0x0a000001⟩

def c7rt : Rt := ⟨⟨false, false, false, false, false⟩, 9, 0x0a00000a⟩

def c7w : World where
  ctLookup := fun _ => ⟨.new, false, 0, 0, 0⟩
  natLookup := fun _ _ _ _ _ => none
  rtLookup := fun _ => some c7rt
  decap := fun _ => none
  stateMapOk := true
  encapOk := true
  csumOk := true
  icmpTooBigOk := true
  icmpTtlOk := true
  fibHit := true
  redirectOk := true

def c7pkt : Pkt :=
  ⟨0, ETH_P_IP, 9, false, IPPROTO_UDP, 0x0a000002, 0x0a000003, 40000, 80, 64,
   false, false, false, true, true, false, false⟩

def c7st : CtState :=
  ⟨IPPROTO_UDP, 0x0a000002, 0x0a000003, 40000, 80, 0, 0, 0, .allow, false,
   ⟨.establishedDNAT, false, 0x0a000009, 8080, 0⟩, ⟨0, 0⟩⟩

/-- C7 counterexample: a DF-set, too-big frame on the encap path with a
working ICMP helper is not dropped and no ICMP_DF reason is recorded; the
frame is rewritten into the ICMP reply and passed back out. -/
theorem C7_encap_df_too_big_counterexample :
    (calico_tc_skb_accepted c7g c7w c7pkt c7st none).1.res = TC_ACT_UNSPEC ∧
    (calico_tc_skb_accepted c7g c7w c7pkt c7st none).1.res ≠ TC_ACT_SHOT ∧
    (calico_tc_skb_accepted c7g c7w c7pkt c7st none).1.reason ≠
      Reason.icmpDF ∧
    (calico_tc_skb_accepted c7g c7w c7pkt c7st none).2.1.ipProto =
      IPPROTO_ICMP :=
  ⟨by decide, by decide, by decide, by decide⟩

/-- C7 witness: the amended statement applied at the concrete encap input. -/
theorem C7_encap_df_too_big_witness :
    (calico_tc_skb_accepted c7g c7w c7pkt c7st none).1.mark =
      CALI_SKB_MARK_BYPASS_FWD ∧
    (calico_tc_skb_accepted c7g c7w c7pkt c7st none).1.res ≠ TC_ACT_SHOT :=
  have h := C7_encap_df_too_big c7g c7w c7pkt c7st none c7rt rfl rfl rfl rfl
    rfl rfl rfl rfl rfl rfl
  ⟨(h.1 rfl).2.2.2.2, (h.1 rfl).2.1⟩

/-- C8 (amended): a new flow whose policy evaluation matches no rule gets the
no-match fall-through result, and the post-policy program drops a NEW flow
with a no-match or deny policy result, except when the packet's TTL is
exceeded and a NAT destination was found, where an ICMP time-exceeded reply is
produced before the policy result is consulted. -/
theorem C8_new_flow_default_deny (rules : List PolRule) (g : Globals)
    (w : World) (pkt : Pkt) (st : CtState) (nd : Option NatDest)
    (proto saddr daddr sport dport : Nat)
    (hnm : ∀ r ∈ rules, r.ruleMatches proto saddr daddr sport dport = false)
    (hrc : st.ctResult.rc = .new)
    (hpol : st.polRc = .noMatch ∨ st.polRc = .deny)
    (httl : ¬(ip_ttl_exceeded pkt = true ∧ nd.isSome = true)) :
    execute_policy_norm rules proto saddr daddr sport dport = .noMatch ∧
    (calico_tc_skb_accepted g w pkt st nd).1.res = TC_ACT_SHOT := by
  constructor
  · unfold execute_policy_norm
    have hfind :
        rules.find? (fun r => r.ruleMatches proto saddr daddr sport dport) =
          none := by
      rw [List.find?_eq_none]
      intro r hr
      simp [hnm r hr]
    rw [hfind]
  · unfold calico_tc_skb_accepted
    rw [hrc]
    dsimp only
    have hcond : (ip_ttl_exceeded pkt && nd.isSome) = false := by
      cases hx : ip_ttl_exceeded pkt
      · rfl
      · cases hy : nd.isSome
        · simp
        · exact absurd ⟨hx, hy⟩ httl
    rw [hcond]
    simp only [Bool.false_eq_true, if_false, ite_false]
    rcases hpol with h | h <;> rw [h] <;> rfl

def c8g : Globals :=
  ⟨.fromWep, true, false, false, false, false, false, 0x0a000001⟩

def c8w : World where
  ctLookup := fun _ => ⟨.new, false, 0, 0, 0⟩
  natLookup := fun _ _ _ _ _ => none
  rtLookup := fun _ => none
  decap := fun _ => none
  stateMapOk := true
  encapOk := true
  csumOk := true
  icmpTooBigOk := true
  icmpTtlOk := true
  fibHit := true
  redirectOk := true

def c8pkt : Pkt :=
  ⟨0, ETH_P_IP, 7, false, IPPROTO_UDP, 0x0a000002, 0x0a000003, 40000, 53, 1,
   false, false, false, false, false, false, false⟩

def c8st : CtState :=
  ⟨IPPROTO_UDP, 0x0a000002, 0x0a000003, 40000, 53, 0x0a000009, 8080, 0,
   .noMatch, false, ⟨.new, false, 0, 0, 0⟩, ⟨0, 0⟩⟩

/-- C8 counterexample: a NEW flow with a no-match policy result but TTL
exceeded and a NAT destination is not dropped: the post-policy program answers
with an ICMP time-exceeded reply before looking at the policy result. -/
theorem C8_new_flow_default_deny_counterexample :
    c8st.ctResult.rc = CTRc.new ∧ c8st.polRc = PolRc.noMatch ∧
    (calico_tc_skb_accepted c8g c8w c8pkt c8st
      (some ⟨0x0a000009, 8080⟩)).1.res = TC_ACT_UNSPEC ∧
    (calico_tc_skb_accepted c8g c8w c8pkt c8st
      (some ⟨0x0a000009, 8080⟩)).1.res ≠ TC_ACT_SHOT :=
  ⟨rfl, rfl, by decide, by decide⟩

def c8wpkt : Pkt :=
  ⟨0, ETH_P_IP, 7, false, IPPROTO_UDP, 0x0a000002, 0x0a000003, 40000, 53, 64,
   false, false, false, false, false, false, false⟩

/-- C8 witness: the amended statement applied at concrete inputs with an empty
rule list and a healthy TTL. -/
theorem C8_new_flow_default_deny_witness :
    execute_policy_norm [] 6 1 2 3 4 = .noMatch ∧
    (calico_tc_skb_accepted c8g c8w c8wpkt c8st none).1.res = TC_ACT_SHOT :=
  C8_new_flow_default_deny [] c8g c8w c8wpkt c8st none 6 1 2 3 4
    (fun _r hr => nomatch hr) rfl (Or.inl rfl) (by decide)

end TC
